import Mathlib

/-!
Shallow embedding of the ShelfLife offline-first synchronization layer.

The embedding translates, from the TypeScript source:
  * the core data model (`src/types`): inventory items, shopping lists,
    saved recipes, sync operations;
  * the durable sync queue and its last-writer-wins compaction
    (`syncService.addToSyncQueue`);
  * the queue drain (`syncService.processSyncQueue`) and the full sync
    cycle (`syncService.fullSync`);
  * the in-memory remote store mocks (`dynamoDBService`: JS `Map`s with
    insertion-order association-list semantics);
  * the zustand inventory and recipes stores (`useInventoryStore`,
    `useRecipesStore`) together with the screen-level validation
    (`AddItemScreen.handleSave`, `EditItemScreen.handleSave`);
  * the expiration notification scheduler (`notificationService`).

Effects are made explicit: asynchronous storage is explicit state passing
(`LocalStore` models the AsyncStorage contents under the fixed keys,
`RemoteState` models the mock DynamoDB storage), the connectivity oracle is
a `Bool` parameter, fresh random ids and `new Date()` timestamps are
explicit `String` parameters, and a remote call that may reject is a
function returning `Option` (`none` models a thrown/rejected promise).
Timestamps handled arithmetically by the scheduler are integer epoch
milliseconds in UTC (mirroring the JS `Date` millisecond arithmetic).
-/

namespace ShelfLife

/-- The `ItemLocation` from src/types: "fridge" | "pantry". -/
inductive ItemLocation where
  | fridge
  | pantry
deriving DecidableEq

/-- The `ItemOwnership` from src/types: "personal" | "household". -/
inductive ItemOwnership where
  | personal
  | household
deriving DecidableEq

/-- The `InventoryItem` from src/types.  `quantity` is a JS number used as an
exact quantity, embedded as `Rat`; `expirationDate` is the parsed calendar
date as epoch milliseconds (`none` when the optional field is absent). -/
structure InventoryItem where
  id : String
  userId : String
  householdId : Option String := none
  ownership : ItemOwnership
  name : String
  location : ItemLocation
  quantity : Rat
  unit : String
  expirationDate : Option Int := none
  imageUrl : Option String := none
  addedAt : String := ""
  updatedAt : String := ""
deriving DecidableEq

/-- The `Recipe` from src/types (the denormalized Spoonacular snapshot). -/
structure Recipe where
  id : Int
  title : String
  image : String
  readyInMinutes : Int
  servings : Int
  sourceUrl : String
  summary : String
deriving DecidableEq

/-- The `SavedRecipe` from src/types. -/
structure SavedRecipe where
  id : String
  userId : String
  recipeId : Int
  recipeData : Recipe
  savedAt : String
deriving DecidableEq

/-- The `ShoppingListItem` from src/types. -/
structure ShoppingListItem where
  id : String
  name : String
  quantity : Rat
  unit : String
  checked : Bool
  recipeId : Option Int := none
deriving DecidableEq

/-- The `ShoppingList` from src/types. -/
structure ShoppingList where
  id : String
  userId : String
  householdId : Option String := none
  ownership : ItemOwnership
  name : String
  items : List ShoppingListItem
  createdAt : String := ""
  updatedAt : String := ""
deriving DecidableEq

/-- The user-profile `NotificationSettings` from src/types (distinct from
the notification service's settings record, defined later). -/
structure UserNotificationSettings where
  enabled : Bool
  expirationWarningDays : List Int
  lowStockAlerts : Bool
deriving DecidableEq

/-- The `User` from src/types. -/
structure User where
  id : String
  email : String
  name : String
  householdId : Option String := none
  notificationSettings : UserNotificationSettings
  createdAt : String := ""
  updatedAt : String := ""
deriving DecidableEq

/-- The `Household` from src/types. -/
structure Household where
  id : String
  name : String
  ownerId : String
  memberIds : List String
  inviteCode : String
  createdAt : String := ""
deriving DecidableEq

/-- The `SyncOperationType` from syncService: "CREATE" | "UPDATE" | "DELETE". -/
inductive SyncOperationType where
  | CREATE
  | UPDATE
  | DELETE
deriving DecidableEq

/-- The `SyncEntityType` from syncService:
"INVENTORY" | "SHOPPING_LIST" | "SAVED_RECIPE". -/
inductive SyncEntityType where
  | INVENTORY
  | SHOPPING_LIST
  | SAVED_RECIPE
deriving DecidableEq

/-- The `data: any` payload of a sync operation.  At the repository's call
sites it is either a full entity (CREATE/UPDATE) or a bare `{ id }`
reference (DELETE); the embedding enumerates those shapes. -/
inductive SyncData where
  | inv (item : InventoryItem)
  | shopping (l : ShoppingList)
  | recipe (r : SavedRecipe)
  | ref (id : String)
deriving DecidableEq

/-- The `data?.id` field access used by the queue compaction filter and the
DELETE/UPDATE dispatch.  Every payload shape produced by the repository
carries an `id`. -/
def SyncData.dataId : SyncData → String
  | .inv item => item.id
  | .shopping l => l.id
  | .recipe r => r.id
  | .ref i => i

/-- The `SyncOperation` from syncService. -/
structure SyncOperation where
  id : String
  type : SyncOperationType
  entity : SyncEntityType
  data : SyncData
  timestamp : String
deriving DecidableEq

/-- An enqueue request: `Omit<SyncOperation, "id" | "timestamp">`. -/
structure SyncOperationInput where
  type : SyncOperationType
  entity : SyncEntityType
  data : SyncData
deriving DecidableEq

/-- The spread `{...operation, id: Math.random()..., timestamp: new Date()...}`
performed by `addToSyncQueue`; the random id and the timestamp are explicit
parameters. -/
def SyncOperationInput.stamp (op : SyncOperationInput) (freshId now : String) :
    SyncOperation :=
  { id := freshId, type := op.type, entity := op.entity, data := op.data,
    timestamp := now }

/-- The compaction predicate of `addToSyncQueue`:
`op.entity === operation.entity && op.data?.id === operation.data?.id`. -/
def sameTarget (entity : SyncEntityType) (dataId : String) (op : SyncOperation) :
    Bool :=
  decide (op.entity = entity) && decide (op.data.dataId = dataId)

/-- The `addToSyncQueue` from syncService: read the queue, drop every queued
operation for the same (entity kind, payload id) pair, append the stamped
new operation, write the queue back.  The read-modify-write of the
persisted queue is the list-to-list function. -/
def addToSyncQueue (op : SyncOperationInput) (freshId now : String)
    (queue : List SyncOperation) : List SyncOperation :=
  let filteredQueue :=
    queue.filter fun o => !sameTarget op.entity op.data.dataId o
  filteredQueue ++ [op.stamp freshId now]

/-- The stamped operation still targets the (entity kind, payload id) pair
of its input. -/
lemma sameTarget_stamp (op : SyncOperationInput) (i t : String) :
    sameTarget op.entity op.data.dataId (op.stamp i t) = true := by
  simp [sameTarget, SyncOperationInput.stamp]

/-- Filtering for a predicate after keeping only its complement yields
nothing. -/
lemma filter_not_filter {α} (p : α → Bool) (l : List α) :
    (l.filter fun a => !p a).filter p = [] := by
  induction l with
  | nil => rfl
  | cons a l ih => by_cases h : p a = true <;> simp [h, ih]

/-- Keeping the complement of a predicate is idempotent. -/
lemma filter_not_idem {α} (p : α → Bool) (l : List α) :
    ((l.filter fun a => !p a).filter fun a => !p a) = l.filter fun a => !p a := by
  induction l with
  | nil => rfl
  | cons a l ih => by_cases h : p a = true <;> simp [h, ih]

/-- C1.  Queue compaction: enqueuing removes all queued operations with the
same (entity kind, payload id) pair before appending the new one, so the
queue then holds exactly one operation for that pair (the appended one);
operations for other pairs survive in their original relative order; and a
second enqueue for the same pair leaves exactly the later operation queued
alongside the untouched survivors. -/
theorem addToSyncQueue_compaction (queue : List SyncOperation)
    (op : SyncOperationInput) (i1 t1 : String) :
    (addToSyncQueue op i1 t1 queue).filter
        (fun o => sameTarget op.entity op.data.dataId o) = [op.stamp i1 t1] ∧
    ((addToSyncQueue op i1 t1 queue).filter
        fun o => !sameTarget op.entity op.data.dataId o)
      = (queue.filter fun o => !sameTarget op.entity op.data.dataId o) ∧
    ∀ (op2 : SyncOperationInput) (i2 t2 : String),
      op2.entity = op.entity → op2.data.dataId = op.data.dataId →
      addToSyncQueue op2 i2 t2 (addToSyncQueue op i1 t1 queue)
        = (queue.filter fun o => !sameTarget op.entity op.data.dataId o)
            ++ [op2.stamp i2 t2] := by
  refine ⟨?_, ?_, ?_⟩
  · simp [addToSyncQueue, List.filter_append, filter_not_filter, sameTarget_stamp]
  · simp [addToSyncQueue, List.filter_append, filter_not_idem, sameTarget_stamp]
  · intro op2 i2 t2 hE hD
    simp [addToSyncQueue, hE, hD, List.filter_append, filter_not_idem,
      sameTarget_stamp]

/-- A concrete inventory payload used by the compaction witness. -/
def c1item (n : String) : InventoryItem :=
  { id := n, userId := "u", ownership := .personal, name := n,
    location := .fridge, quantity := 1, unit := "pcs" }

/-- Concrete UPDATE enqueue request for item "a". -/
def c1op1 : SyncOperationInput := ⟨.UPDATE, .INVENTORY, .inv (c1item "a")⟩

/-- Concrete DELETE enqueue request for the same item "a". -/
def c1op2 : SyncOperationInput := ⟨.DELETE, .INVENTORY, .ref "a"⟩

/-- An unrelated queued operation for item "b". -/
def c1other : SyncOperation := ⟨"q0", .CREATE, .INVENTORY, .inv (c1item "b"), "t0"⟩

/-- C1 witness: enqueuing UPDATE("a") then DELETE("a") on a queue holding an
operation for "b" leaves the "b" operation followed by only the later
operation for "a". -/
theorem addToSyncQueue_compaction_witness :
    addToSyncQueue c1op2 "i2" "t2" (addToSyncQueue c1op1 "i1" "t1" [c1other])
      = [c1other, c1op2.stamp "i2" "t2"] := by
  have h := (addToSyncQueue_compaction [c1other] c1op1 "i1" "t1").2.2
    c1op2 "i2" "t2" rfl rfl
  rw [h]
  rfl

/-- JS `Map.set` on an insertion-ordered association list: replace the
entry with the given key in place, or append a fresh entry. -/
def mapSet {α} : List (String × α) → String → α → List (String × α)
  | [], k, v => [(k, v)]
  | (k', v') :: rest, k, v =>
    if k' = k then (k, v) :: rest else (k', v') :: mapSet rest k v

/-- JS `Map.get`. -/
def mapGet {α} (m : List (String × α)) (k : String) : Option α :=
  (m.find? fun kv => decide (kv.1 = k)).map (·.2)

/-- JS `Map.delete`. -/
def mapDelete {α} (m : List (String × α)) (k : String) : List (String × α) :=
  m.filter fun kv => !decide (kv.1 = k)

/-- The `mockStorage` module state of dynamoDBService: five in-memory maps
serving as the remote store in development mode. -/
structure RemoteState where
  users : List (String × User) := []
  inventory : List (String × InventoryItem) := []
  shoppingLists : List (String × ShoppingList) := []
  savedRecipes : List (String × SavedRecipe) := []
  households : List (String × Household) := []
deriving DecidableEq

/-- The `createInventoryItemMock`: `mockStorage.inventory.set(item.id, item)`. -/
def createInventoryItemMock (item : InventoryItem) (r : RemoteState) :
    RemoteState :=
  { r with inventory := mapSet r.inventory item.id item }

/-- The `updateInventoryItemMock`: merge the updates into the existing entry if
one exists, else do nothing.  The repository's only call site passes the
full replacement item as the updates object, so the `{...existing,
...updates}` spread is the replacement itself. -/
def updateInventoryItemMock (itemId : String) (updates : InventoryItem)
    (r : RemoteState) : RemoteState :=
  match mapGet r.inventory itemId with
  | some _ => { r with inventory := mapSet r.inventory itemId updates }
  | none => r

/-- The `deleteInventoryItemMock`. -/
def deleteInventoryItemMock (itemId : String) (r : RemoteState) : RemoteState :=
  { r with inventory := mapDelete r.inventory itemId }

/-- The `getInventoryItemsByUserMock`. -/
def getInventoryItemsByUserMock (userId : String) (r : RemoteState) :
    List InventoryItem :=
  (r.inventory.map (·.2)).filter fun item => decide (item.userId = userId)

/-- The `createShoppingListMock`. -/
def createShoppingListMock (l : ShoppingList) (r : RemoteState) : RemoteState :=
  { r with shoppingLists := mapSet r.shoppingLists l.id l }

/-- The `updateShoppingListMock` (full replacement at the repository's only
call site, like `updateInventoryItemMock`). -/
def updateShoppingListMock (listId : String) (updates : ShoppingList)
    (r : RemoteState) : RemoteState :=
  match mapGet r.shoppingLists listId with
  | some _ => { r with shoppingLists := mapSet r.shoppingLists listId updates }
  | none => r

/-- The `deleteShoppingListMock`. -/
def deleteShoppingListMock (listId : String) (r : RemoteState) : RemoteState :=
  { r with shoppingLists := mapDelete r.shoppingLists listId }

/-- The `getShoppingListsByUserMock`. -/
def getShoppingListsByUserMock (userId : String) (r : RemoteState) :
    List ShoppingList :=
  (r.shoppingLists.map (·.2)).filter fun l => decide (l.userId = userId)

/-- The `createSavedRecipeMock`. -/
def createSavedRecipeMock (rec : SavedRecipe) (r : RemoteState) : RemoteState :=
  { r with savedRecipes := mapSet r.savedRecipes rec.id rec }

/-- The `deleteSavedRecipeMock`. -/
def deleteSavedRecipeMock (recipeId : String) (r : RemoteState) : RemoteState :=
  { r with savedRecipes := mapDelete r.savedRecipes recipeId }

/-- The `getSavedRecipesByUserMock`. -/
def getSavedRecipesByUserMock (userId : String) (r : RemoteState) :
    List SavedRecipe :=
  (r.savedRecipes.map (·.2)).filter fun rec => decide (rec.userId = userId)

/-- The `processInventoryOperation`: entity-kind branch already chosen;
dispatch on the operation type.  A payload shape the dynamic code would
never receive from the repository's enqueues leaves the store unchanged. -/
def processInventoryOperation (op : SyncOperation) (r : RemoteState) :
    RemoteState :=
  match op.type, op.data with
  | .CREATE, .inv item => createInventoryItemMock item r
  | .UPDATE, .inv item => updateInventoryItemMock item.id item r
  | .DELETE, d => deleteInventoryItemMock d.dataId r
  | _, _ => r

/-- The `processShoppingListOperation`. -/
def processShoppingListOperation (op : SyncOperation) (r : RemoteState) :
    RemoteState :=
  match op.type, op.data with
  | .CREATE, .shopping l => createShoppingListMock l r
  | .UPDATE, .shopping l => updateShoppingListMock l.id l r
  | .DELETE, d => deleteShoppingListMock d.dataId r
  | _, _ => r

/-- The `processSavedRecipeOperation`: the switch has cases only for CREATE and
DELETE; an UPDATE operation falls through and performs no remote write. -/
def processSavedRecipeOperation (op : SyncOperation) (r : RemoteState) :
    RemoteState :=
  match op.type, op.data with
  | .CREATE, .recipe rec => createSavedRecipeMock rec r
  | .DELETE, d => deleteSavedRecipeMock d.dataId r
  | _, _ => r

/-- The `processOperation`: dispatch a queued operation by entity kind. -/
def processOperation (op : SyncOperation) (r : RemoteState) : RemoteState :=
  match op.entity with
  | .INVENTORY => processInventoryOperation op r
  | .SHOPPING_LIST => processShoppingListOperation op r
  | .SAVED_RECIPE => processSavedRecipeOperation op r

/-- The mock remote never rejects, so replay through `processOperation`
always completes (`some`). -/
def mockReplay : SyncOperation → RemoteState → Option RemoteState :=
  fun op r => some (processOperation op r)

/-- A replay outcome fixed per operation: `ok op = true` means the awaited
remote call resolves (leaving the oracle-modelled remote unchanged),
`false` means it rejects. -/
def pureReplay (ok : SyncOperation → Bool) :
    SyncOperation → RemoteState → Option RemoteState :=
  fun op r => if ok op then some r else none

/-- The AsyncStorage contents under the fixed `@shelflife_*` keys. -/
structure LocalStore where
  inventory : List InventoryItem := []
  shoppingLists : List ShoppingList := []
  savedRecipes : List SavedRecipe := []
  syncQueue : List SyncOperation := []
  lastSync : Option String := none
deriving DecidableEq

/-- The `{ success, failed }` tally returned by `processSyncQueue`. -/
structure SyncTally where
  success : Nat
  failed : Nat
deriving DecidableEq

/-- Result of the drain loop inside `processSyncQueue`. -/
structure DrainResult where
  remote : RemoteState
  success : Nat
  failed : Nat
  remaining : List SyncOperation
deriving DecidableEq

/-- The `for (const operation of queue) { try ... catch ... }` loop of
`processSyncQueue`: each operation is attempted independently; a successful
replay advances the remote state and the success counter, a rejected one
keeps the operation in `remainingQueue` and advances the failure counter. -/
def drainLoop (replay : SyncOperation → RemoteState → Option RemoteState) :
    List SyncOperation → RemoteState → Nat → Nat → List SyncOperation →
    DrainResult
  | [], r, s, f, rem => ⟨r, s, f, rem⟩
  | op :: rest, r, s, f, rem =>
    match replay op r with
    | some r2 => drainLoop replay rest r2 (s + 1) f rem
    | none => drainLoop replay rest r s (f + 1) (rem ++ [op])

/-- The `processSyncQueue` from syncService: if offline, return `{success: 0,
failed: 0}` immediately without touching storage; otherwise drain the
queue, persist the remaining operations, record the last-sync timestamp,
and return the tally. -/
def processSyncQueue (online : Bool)
    (replay : SyncOperation → RemoteState → Option RemoteState)
    (now : String) (st : LocalStore) (remote : RemoteState) :
    LocalStore × RemoteState × SyncTally :=
  if !online then (st, remote, ⟨0, 0⟩)
  else
    let d := drainLoop replay st.syncQueue remote 0 0 []
    ({ st with syncQueue := d.remaining, lastSync := some now },
      d.remote, ⟨d.success, d.failed⟩)

/-- The `{ inventory, shoppingLists, savedRecipes }` object returned by
`fullSync`. -/
structure FullSyncResult where
  inventory : List InventoryItem
  shoppingLists : List ShoppingList
  savedRecipes : List SavedRecipe
deriving DecidableEq

/-- The offline / error fallback of `fullSync`: read the three collection
snapshots back from local storage (`loadInventoryLocal`,
`loadShoppingListsLocal`, `loadSavedRecipesLocal`). -/
def localSnapshots (st : LocalStore) : FullSyncResult :=
  ⟨st.inventory, st.shoppingLists, st.savedRecipes⟩

/-- The `fullSync` from syncService.  `pullOk = false` models any rejection
inside the `try` block's pull phase (the `Promise.all` of the three
by-user fetches); the `catch` swallows it and falls back to the local
snapshots, so the function is total — the cycle never throws to its
caller.  The result is modelled as `Except` so that a propagated error
would be observable; the definition only ever produces `Except.ok`. -/
def fullSync (online : Bool)
    (replay : SyncOperation → RemoteState → Option RemoteState)
    (pullOk : Bool) (userId now : String) (st : LocalStore)
    (remote : RemoteState) :
    Except Unit (LocalStore × RemoteState × FullSyncResult) :=
  if !online then .ok (st, remote, localSnapshots st)
  else
    let pushed := processSyncQueue true replay now st remote
    let st1 := pushed.1
    let r1 := pushed.2.1
    if pullOk then
      let inventory := getInventoryItemsByUserMock userId r1
      let shoppingLists := getShoppingListsByUserMock userId r1
      let savedRecipes := getSavedRecipesByUserMock userId r1
      .ok ({ st1 with
              inventory := inventory
              shoppingLists := shoppingLists
              savedRecipes := savedRecipes
              lastSync := some now },
            r1, ⟨inventory, shoppingLists, savedRecipes⟩)
    else
      .ok (st1, r1, localSnapshots st1)

/-- C2.  Offline no-op: when the connectivity check reports offline, one
drain cycle returns `{success: 0, failed: 0}` and leaves the whole local
store — the persisted queue and the last-sync timestamp included — and the
remote store untouched. -/
theorem processSyncQueue_offline_noop
    (replay : SyncOperation → RemoteState → Option RemoteState)
    (now : String) (st : LocalStore) (remote : RemoteState) :
    processSyncQueue false replay now st remote = (st, remote, ⟨0, 0⟩) := by
  simp [processSyncQueue]

/-- Closed form of the drain loop when the replay outcome is a fixed
per-operation oracle: successes count the accepted operations, failures
count and retain the rejected ones in order. -/
lemma drainLoop_pure (ok : SyncOperation → Bool) (q : List SyncOperation) :
    ∀ (r : RemoteState) (s f : Nat) (rem : List SyncOperation),
      drainLoop (pureReplay ok) q r s f rem
        = ⟨r, s + (q.filter ok).length,
            f + (q.filter fun op => !ok op).length,
            rem ++ (q.filter fun op => !ok op)⟩ := by
  induction q with
  | nil => intro r s f rem; simp [drainLoop]
  | cons op rest ih =>
    intro r s f rem
    by_cases h : ok op = true
    · simp [drainLoop, pureReplay, h, ih]
      omega
    · simp [drainLoop, pureReplay, h, ih]
      omega

/-- C3.  Partial-failure continuation: draining a queue in which exactly
one operation `opk` is rejected and every other operation succeeds
attempts all of them, reports `{success: N-1, failed: 1}`, and persists a
queue holding exactly `opk`. -/
theorem processSyncQueue_partial_failure
    (q1 q2 : List SyncOperation) (opk : SyncOperation)
    (ok : SyncOperation → Bool)
    (h1 : ∀ op ∈ q1, ok op = true) (hk : ok opk = false)
    (h2 : ∀ op ∈ q2, ok op = true)
    (now : String) (st : LocalStore) (remote : RemoteState)
    (hq : st.syncQueue = q1 ++ opk :: q2) :
    processSyncQueue true (pureReplay ok) now st remote
      = ({ st with syncQueue := [opk], lastSync := some now }, remote,
          ⟨st.syncQueue.length - 1, 1⟩) := by
  have e1 : q1.filter ok = q1 := List.filter_eq_self.mpr h1
  have e2 : q2.filter ok = q2 := List.filter_eq_self.mpr h2
  have e3 : (q1.filter fun op => !ok op) = [] := by
    refine List.filter_eq_nil_iff.mpr fun a ha => ?_
    simp [h1 a ha]
  have e4 : (q2.filter fun op => !ok op) = [] := by
    refine List.filter_eq_nil_iff.mpr fun a ha => ?_
    simp [h2 a ha]
  simp [processSyncQueue, hq, drainLoop_pure, List.filter_append,
    List.filter_cons, hk, e1, e2, e3, e4, List.length_append]

/-- Concrete DELETE operation used by the partial-failure witness. -/
def c3op (n : String) : SyncOperation := ⟨n, .DELETE, .INVENTORY, .ref n, "t"⟩

/-- Replay oracle failing exactly the operation with id "b". -/
def c3ok : SyncOperation → Bool := fun op => decide (op.id ≠ "b")

/-- C3 witness: of three queued operations with only the middle one
rejected, the drain reports 2 successes and 1 failure and keeps exactly
the rejected operation. -/
theorem processSyncQueue_partial_failure_witness :
    processSyncQueue true (pureReplay c3ok) "T"
        { syncQueue := [c3op "a", c3op "b", c3op "c"] } {}
      = ({ syncQueue := [c3op "b"], lastSync := some "T" }, {}, ⟨2, 1⟩) := by
  have h := processSyncQueue_partial_failure [c3op "a"] [c3op "c"] (c3op "b")
    c3ok (by decide) (by decide) (by decide) "T"
    { syncQueue := [c3op "a", c3op "b", c3op "c"] } {} rfl
  exact h

/-- C4.  Pull-failure fallback: whatever the connectivity, the replay
outcomes, and the current state, a full sync cycle whose pull phase fails
completes normally (the result is `Except.ok`, never a propagated error)
and hands back the last-known local snapshots of the three collections;
the persisted snapshots are left unchanged as well. -/
theorem fullSync_pull_failure_fallback (online : Bool)
    (replay : SyncOperation → RemoteState → Option RemoteState)
    (userId now : String) (st : LocalStore) (remote : RemoteState) :
    ∃ st2 r2,
      fullSync online replay false userId now st remote
        = .ok (st2, r2, localSnapshots st)
      ∧ localSnapshots st2 = localSnapshots st := by
  cases online with
  | false => exact ⟨st, remote, rfl, rfl⟩
  | true =>
    refine ⟨(processSyncQueue true replay now st remote).1,
      (processSyncQueue true replay now st remote).2.1, ?_, ?_⟩
    · simp [fullSync, processSyncQueue, localSnapshots]
    · simp [processSyncQueue, localSnapshots]

/-- Setting the same key and value twice with `mapSet` equals setting it once. -/
lemma mapSet_idem {α} (m : List (String × α)) (k : String) (v : α) :
    mapSet (mapSet m k v) k v = mapSet m k v := by
  induction m with
  | nil => simp [mapSet]
  | cons kv rest ih =>
    obtain ⟨k1, v1⟩ := kv
    by_cases h : k1 = k
    · simp [mapSet, h]
    · simp [mapSet, h, ih]

/-- A key absent from an association list matches no entry. -/
lemma filter_key_eq_nil {α} (m : List (String × α)) (k : String)
    (h : k ∉ m.map Prod.fst) :
    (m.filter fun kv => decide (kv.1 = k)) = [] := by
  refine List.filter_eq_nil_iff.mpr fun kv hkv => ?_
  simp only [decide_eq_true_eq]
  intro hk
  exact h (by simpa [hk] using List.mem_map_of_mem Prod.fst hkv)

/-- After `Map.set` on a map with no duplicate keys, exactly one entry
carries the key: the freshly written one. -/
lemma mapSet_single_key {α} (m : List (String × α)) (k : String) (v : α)
    (h : (m.map Prod.fst).Nodup) :
    ((mapSet m k v).filter fun kv => decide (kv.1 = k)) = [(k, v)] := by
  induction m with
  | nil => simp [mapSet]
  | cons kv rest ih =>
    obtain ⟨k1, v1⟩ := kv
    simp only [List.map_cons, List.nodup_cons] at h
    by_cases hk : k1 = k
    · subst hk
      have : (rest.filter fun kv => decide (kv.1 = k1)) = [] :=
        filter_key_eq_nil rest k1 h.1
      simp [mapSet, this]
    · simp [mapSet, hk, ih h.2]

/-- C7.  Idempotent CREATE replay: writing the same inventory item to the
remote mock twice yields the same remote state as writing it once, and the
resulting store carries exactly one entity under the item's id. -/
theorem createInventoryItemMock_idempotent (item : InventoryItem)
    (r : RemoteState) (h : (r.inventory.map Prod.fst).Nodup) :
    createInventoryItemMock item (createInventoryItemMock item r)
        = createInventoryItemMock item r
      ∧ ((createInventoryItemMock item r).inventory.filter
          fun kv => decide (kv.1 = item.id)) = [(item.id, item)] := by
  constructor
  · simp [createInventoryItemMock, mapSet_idem]
  · exact mapSet_single_key _ _ _ h

/-- Concrete item for the idempotent-replay witness. -/
def c7item : InventoryItem :=
  { id := "a", userId := "u", ownership := .personal, name := "Milk",
    location := .fridge, quantity := 2, unit := "L" }

/-- C7 witness: replaying CREATE("a") twice on the empty remote equals
replaying it once, and the store holds a single entity under "a". -/
theorem createInventoryItemMock_idempotent_witness :
    createInventoryItemMock c7item (createInventoryItemMock c7item {})
        = createInventoryItemMock c7item {}
      ∧ ((createInventoryItemMock c7item {}).inventory.filter
          fun kv => decide (kv.1 = c7item.id)) = [(c7item.id, c7item)] :=
  createInventoryItemMock_idempotent c7item {} (by simp)

/-- C10.  A queued UPDATE operation for the SAVED_RECIPE entity kind hits a
handler with no UPDATE branch: it performs no remote write at all, yet the
drain counts it as a success and removes it from the queue. -/
theorem processSavedRecipeOperation_update_noop (r : RemoteState)
    (op : SyncOperation) (h1 : op.entity = .SAVED_RECIPE)
    (h2 : op.type = .UPDATE) :
    processSavedRecipeOperation op r = r
      ∧ processOperation op r = r
      ∧ ∀ (now : String) (st : LocalStore), st.syncQueue = [op] →
          processSyncQueue true mockReplay now st r
            = ({ st with syncQueue := [], lastSync := some now }, r, ⟨1, 0⟩) := by
  obtain ⟨i, ty, e, d, ts⟩ := op
  simp only at h1 h2
  subst h1; subst h2
  have hno : processSavedRecipeOperation ⟨i, .UPDATE, .SAVED_RECIPE, d, ts⟩ r
      = r := by
    cases d <;> rfl
  refine ⟨hno, ?_, ?_⟩
  · simpa [processOperation] using hno
  · intro now st hq
    simp [processSyncQueue, hq, drainLoop, mockReplay, processOperation, hno]

/-- Concrete saved recipe for the C10 witness. -/
def c10saved : SavedRecipe :=
  ⟨"sr1", "current-user", 1, ⟨1, "Spaghetti Carbonara", "img", 30, 4, "url", "s"⟩,
    "t0"⟩

/-- Concrete queued UPDATE operation for the SAVED_RECIPE entity. -/
def c10op : SyncOperation := ⟨"q1", .UPDATE, .SAVED_RECIPE, .recipe c10saved, "t1"⟩

/-- C10 witness: draining a queue holding the saved-recipe UPDATE leaves
the remote untouched and reports 1 success, 0 failures, empty queue. -/
theorem processSavedRecipeOperation_update_noop_witness :
    processSyncQueue true mockReplay "T" { syncQueue := [c10op] } {}
      = ({ syncQueue := ([] : List SyncOperation), lastSync := some "T" }, {},
          ⟨1, 0⟩) :=
  (processSavedRecipeOperation_update_noop {} c10op rfl rfl).2.2 "T"
    { syncQueue := [c10op] } rfl

/-- The argument of `useInventoryStore.addItem`:
`Omit<InventoryItem, "id" | "addedAt" | "updatedAt">`. -/
structure NewItemData where
  userId : String
  householdId : Option String := none
  ownership : ItemOwnership
  name : String
  location : ItemLocation
  quantity : Rat
  unit : String
  expirationDate : Option Int := none
  imageUrl : Option String := none
deriving DecidableEq

/-- The slice of application state the inventory store mutates: the
in-memory `items` array, the persisted inventory snapshot
(`saveInventoryLocal`), and the persisted sync queue (`addToSyncQueue`). -/
structure InventoryStoreState where
  items : List InventoryItem := []
  localInventory : List InventoryItem := []
  syncQueue : List SyncOperation := []
deriving DecidableEq

/-- The `useInventoryStore.addItem`: build the new item with a generated id and
timestamps, append it to the in-memory list, persist the list, and enqueue
a CREATE operation. -/
def addItem (itemData : NewItemData) (freshId now qid : String)
    (st : InventoryStoreState) : InventoryStoreState :=
  let newItem : InventoryItem :=
    { id := freshId
      userId := itemData.userId
      householdId := itemData.householdId
      ownership := itemData.ownership
      name := itemData.name
      location := itemData.location
      quantity := itemData.quantity
      unit := itemData.unit
      expirationDate := itemData.expirationDate
      imageUrl := itemData.imageUrl
      addedAt := now
      updatedAt := now }
  let items := st.items ++ [newItem]
  { items := items
    localInventory := items
    syncQueue := addToSyncQueue ⟨.CREATE, .INVENTORY, .inv newItem⟩ qid now
      st.syncQueue }

/-- A `Partial<InventoryItem>` updates object (the item's `id` is never
part of the repository's update payloads).  A `some` on a doubly optional
field models a property present in the object (possibly holding
`undefined`), which the spread overwrites. -/
structure ItemUpdates where
  userId : Option String := none
  householdId : Option (Option String) := none
  ownership : Option ItemOwnership := none
  name : Option String := none
  location : Option ItemLocation := none
  quantity : Option Rat := none
  unit : Option String := none
  expirationDate : Option (Option Int) := none
  imageUrl : Option (Option String) := none
deriving DecidableEq

/-- The spread `{ ...item, ...updates, updatedAt: now }` computed inside
`useInventoryStore.updateItem`. -/
def applyUpdates (item : InventoryItem) (u : ItemUpdates) (now : String) :
    InventoryItem :=
  { id := item.id
    userId := u.userId.getD item.userId
    householdId := u.householdId.getD item.householdId
    ownership := u.ownership.getD item.ownership
    name := u.name.getD item.name
    location := u.location.getD item.location
    quantity := u.quantity.getD item.quantity
    unit := u.unit.getD item.unit
    expirationDate := u.expirationDate.getD item.expirationDate
    imageUrl := u.imageUrl.getD item.imageUrl
    addedAt := item.addedAt
    updatedAt := now }

/-- The `useInventoryStore.updateItem`: map the update over every item with the
target id, persist the result, and enqueue an UPDATE carrying the merged
item when one matched (the loop variable retains the last match). -/
def updateItem (id : String) (updates : ItemUpdates) (now qid : String)
    (st : InventoryStoreState) : InventoryStoreState :=
  let items := st.items.map fun item =>
    if item.id = id then applyUpdates item updates now else item
  let updatedItem :=
    ((st.items.filter fun item => decide (item.id = id)).getLast?).map
      fun item => applyUpdates item updates now
  { items := items
    localInventory := items
    syncQueue :=
      match updatedItem with
      | some it =>
          addToSyncQueue ⟨.UPDATE, .INVENTORY, .inv it⟩ qid now st.syncQueue
      | none => st.syncQueue }

/-- The `useInventoryStore.deleteItem`: drop the item from the in-memory list,
persist, and enqueue a DELETE carrying `{ id }` when the item existed. -/
def deleteItem (id : String) (qid now : String) (st : InventoryStoreState) :
    InventoryStoreState :=
  let itemToDelete := st.items.find? fun item => decide (item.id = id)
  let items := st.items.filter fun item => !decide (item.id = id)
  { items := items
    localInventory := items
    syncQueue :=
      match itemToDelete with
      | some _ =>
          addToSyncQueue ⟨.DELETE, .INVENTORY, .ref id⟩ qid now st.syncQueue
      | none => st.syncQueue }

namespace AddItemScreen

/-- The `AddItemScreen.handleSave`: reject an empty trimmed name, then a
quantity that fails to parse (`none` models `parseFloat` returning `NaN`)
or is not positive, each with a blocking alert message; otherwise call
`addItem` with the validated fields.  The returned `Option String` is the
alert raised on rejection. -/
def handleSave (name : String) (quantity : Option Rat) (unit : String)
    (location : ItemLocation) (ownership : ItemOwnership)
    (expirationDate : Option Int) (freshId now qid : String)
    (st : InventoryStoreState) : InventoryStoreState × Option String :=
  if name.trim = "" then (st, some "Please enter an item name")
  else
    match quantity with
    | none => (st, some "Please enter a valid quantity")
    | some qty =>
      if qty ≤ 0 then (st, some "Please enter a valid quantity")
      else
        (addItem
          { userId := "current-user", householdId := none,
            ownership := ownership, name := name.trim, location := location,
            quantity := qty, unit := unit, expirationDate := expirationDate,
            imageUrl := none } freshId now qid st, none)

end AddItemScreen

namespace EditItemScreen

/-- The `EditItemScreen.handleSave` (ConfirmScreen.tsx): same validation as the
add screen, then `updateItem` with every editable field present in the
updates object. -/
def handleSave (itemId name : String) (quantity : Option Rat) (unit : String)
    (location : ItemLocation) (ownership : ItemOwnership)
    (expirationDate : Option Int) (now qid : String)
    (st : InventoryStoreState) : InventoryStoreState × Option String :=
  if name.trim = "" then (st, some "Please enter an item name")
  else
    match quantity with
    | none => (st, some "Please enter a valid quantity")
    | some qty =>
      if qty ≤ 0 then (st, some "Please enter a valid quantity")
      else
        (updateItem itemId
          { name := some name.trim, quantity := some qty, unit := some unit,
            location := some location, ownership := some ownership,
            expirationDate := some expirationDate } now qid st, none)

end EditItemScreen

/-- The inventory invariant: every item in the collection has a positive
quantity. -/
def quantityInvariant (items : List InventoryItem) : Prop :=
  ∀ item ∈ items, 0 < item.quantity

/-- The `addItem` preserves the positive-quantity invariant when the new item's
quantity is positive. -/
lemma addItem_quantityInvariant (d : NewItemData) (freshId now qid : String)
    (st : InventoryStoreState) (h : quantityInvariant st.items)
    (hq : 0 < d.quantity) :
    quantityInvariant (addItem d freshId now qid st).items := by
  intro item hitem
  simp only [addItem, List.mem_append, List.mem_singleton] at hitem
  rcases hitem with hm | rfl
  · exact h item hm
  · exact hq

/-- The `updateItem` preserves the positive-quantity invariant when the updates
object carries no non-positive quantity. -/
lemma updateItem_quantityInvariant (id : String) (u : ItemUpdates)
    (now qid : String) (st : InventoryStoreState)
    (h : quantityInvariant st.items)
    (hq : ∀ q, u.quantity = some q → 0 < q) :
    quantityInvariant (updateItem id u now qid st).items := by
  intro item hitem
  simp only [updateItem, List.mem_map] at hitem
  obtain ⟨x, hx, rfl⟩ := hitem
  by_cases hid : x.id = id
  · simp only [hid, if_true]
    cases hqu : u.quantity with
    | none => simpa [applyUpdates, hqu] using h x hx
    | some q => simpa [applyUpdates, hqu] using hq q hqu
  · simpa [hid] using h x hx

/-- The `deleteItem` preserves the positive-quantity invariant. -/
lemma deleteItem_quantityInvariant (id : String) (qid now : String)
    (st : InventoryStoreState) (h : quantityInvariant st.items) :
    quantityInvariant (deleteItem id qid now st).items := by
  intro item hitem
  simp only [deleteItem, List.mem_filter] at hitem
  exact h item hitem.1

/-- C8.  Inventory quantity invariant: a missing (`NaN`) or non-positive
quantity is rejected synchronously at entry — the screen handler returns
the state unchanged together with a blocking alert message — and each of
the three inventory operations, reached through their validating entry
points, preserves `quantity > 0` across the collection. -/
theorem inventory_quantity_invariant
    (st : InventoryStoreState) (h : quantityInvariant st.items)
    (itemId name : String) (quantity : Option Rat) (unit : String)
    (location : ItemLocation) (ownership : ItemOwnership)
    (expirationDate : Option Int) (freshId now qid : String) :
    ((∀ x, quantity = some x → x ≤ 0) →
        (AddItemScreen.handleSave name quantity unit location ownership
            expirationDate freshId now qid st).1 = st
        ∧ ((AddItemScreen.handleSave name quantity unit location ownership
            expirationDate freshId now qid st).2).isSome = true)
    ∧ quantityInvariant (AddItemScreen.handleSave name quantity unit location
        ownership expirationDate freshId now qid st).1.items
    ∧ quantityInvariant (EditItemScreen.handleSave itemId name quantity unit
        location ownership expirationDate now qid st).1.items
    ∧ quantityInvariant (deleteItem itemId qid now st).items := by
  refine ⟨?_, ?_, ?_, deleteItem_quantityInvariant itemId qid now st h⟩
  · intro hbad
    by_cases hn : name.trim = ""
    · simp [AddItemScreen.handleSave, hn]
    · cases quantity with
      | none => simp [AddItemScreen.handleSave, hn]
      | some x =>
        have hx : x ≤ 0 := hbad x rfl
        simp [AddItemScreen.handleSave, hn, hx]
  · by_cases hn : name.trim = ""
    · simpa [AddItemScreen.handleSave, hn] using h
    · cases quantity with
      | none => simpa [AddItemScreen.handleSave, hn] using h
      | some x =>
        by_cases hx : x ≤ 0
        · simpa [AddItemScreen.handleSave, hn, hx] using h
        · simp only [AddItemScreen.handleSave, hn, if_false, hx]
          exact addItem_quantityInvariant _ freshId now qid st h
            (lt_of_not_le hx)
  · by_cases hn : name.trim = ""
    · simpa [EditItemScreen.handleSave, hn] using h
    · cases quantity with
      | none => simpa [EditItemScreen.handleSave, hn] using h
      | some x =>
        by_cases hx : x ≤ 0
        · simpa [EditItemScreen.handleSave, hn, hx] using h
        · simp only [EditItemScreen.handleSave, hn, if_false, hx]
          refine updateItem_quantityInvariant itemId _ now qid st h ?_
          intro q hq
          simp only [Option.some.injEq] at hq
          subst hq
          exact lt_of_not_le hx

/-- Concrete store for the C8 witness: one existing valid item. -/
def c8st : InventoryStoreState :=
  { items := [{ id := "a"
                userId := "u"
                ownership := .personal
                name := "Eggs"
                quantity := 12
                unit := "pcs"
                location := .fridge }] }

/-- C8 witness: with a concrete store holding one positive-quantity item,
the handler run with quantity 0 is rejected leaving the state unchanged,
and add/edit/delete runs keep every quantity positive. -/
theorem inventory_quantity_invariant_witness :
    ((AddItemScreen.handleSave "Milk" (some 0) "L" .fridge .personal none
        "idA" "T" "q1" c8st).1 = c8st
      ∧ ((AddItemScreen.handleSave "Milk" (some 0) "L" .fridge .personal none
        "idA" "T" "q1" c8st).2).isSome = true)
    ∧ quantityInvariant (AddItemScreen.handleSave "Milk" (some 0) "L" .fridge
        .personal none "idA" "T" "q1" c8st).1.items
    ∧ quantityInvariant (EditItemScreen.handleSave "a" "Milk" (some 0) "L"
        .fridge .personal none "T" "q1" c8st).1.items
    ∧ quantityInvariant (deleteItem "a" "q1" "T" c8st).items := by
  have h := inventory_quantity_invariant c8st
    (by intro item hitem; simp [c8st] at hitem; simp [hitem])
    "a" "Milk" (some 0) "L" .fridge .personal none "idA" "T" "q1"
  exact ⟨h.1 (by simp), h.2.1, h.2.2.1, h.2.2.2⟩

/-- The slice of state the recipes store mutates: the in-memory saved
recipes, the persisted snapshot (`saveSavedRecipesLocal`), and the sync
queue. -/
structure RecipesStoreState where
  savedRecipes : List SavedRecipe := []
  localSavedRecipes : List SavedRecipe := []
  syncQueue : List SyncOperation := []
deriving DecidableEq

/-- The `useRecipesStore.saveRecipe`: a recipe whose external id is already
saved is an early return; otherwise append the denormalized snapshot,
persist it, and enqueue a CREATE operation. -/
def saveRecipe (recipe : Recipe) (freshId now qid : String)
    (st : RecipesStoreState) : RecipesStoreState :=
  match st.savedRecipes.find? fun r => decide (r.recipeId = recipe.id) with
  | some _ => st
  | none =>
    let savedRecipe : SavedRecipe :=
      { id := freshId, userId := "current-user", recipeId := recipe.id,
        recipeData := recipe, savedAt := now }
    let recipes := st.savedRecipes ++ [savedRecipe]
    { savedRecipes := recipes
      localSavedRecipes := recipes
      syncQueue := addToSyncQueue ⟨.CREATE, .SAVED_RECIPE, .recipe savedRecipe⟩
        qid now st.syncQueue }

/-- The `useRecipesStore.removeSavedRecipe`: drop every entry with the external
recipe id, persist, and enqueue a DELETE for the removed entry's own id
when one existed. -/
def removeSavedRecipe (recipeId : Int) (qid now : String)
    (st : RecipesStoreState) : RecipesStoreState :=
  let recipeToRemove := st.savedRecipes.find? fun r =>
    decide (r.recipeId = recipeId)
  let recipes := st.savedRecipes.filter fun r => !decide (r.recipeId = recipeId)
  { savedRecipes := recipes
    localSavedRecipes := recipes
    syncQueue :=
      match recipeToRemove with
      | some r =>
          addToSyncQueue ⟨.DELETE, .SAVED_RECIPE, .ref r.id⟩ qid now st.syncQueue
      | none => st.syncQueue }

/-- The `useRecipesStore.isSaved`. -/
def isSaved (recipeId : Int) (st : RecipesStoreState) : Bool :=
  st.savedRecipes.any fun r => decide (r.recipeId = recipeId)

/-- The saved-recipes invariant: no two entries share a
(user, external-recipe-id) pair. -/
def savedRecipesUnique (rs : List SavedRecipe) : Prop :=
  rs.Pairwise fun a b => ¬(a.userId = b.userId ∧ a.recipeId = b.recipeId)

/-- C9.  Saved-recipe uniqueness: saving an already-saved external recipe
id is a no-op on the whole state (collection, persisted snapshot, and sync
queue), and both `saveRecipe` and `removeSavedRecipe` preserve the
at-most-one-SavedRecipe-per-(user, external-recipe-id) invariant. -/
theorem savedRecipes_unique_invariant (st : RecipesStoreState)
    (h : savedRecipesUnique st.savedRecipes) (recipe : Recipe)
    (freshId now qid : String) (rid : Int) :
    (isSaved recipe.id st = true → saveRecipe recipe freshId now qid st = st)
    ∧ savedRecipesUnique (saveRecipe recipe freshId now qid st).savedRecipes
    ∧ savedRecipesUnique (removeSavedRecipe rid qid now st).savedRecipes := by
  refine ⟨?_, ?_, ?_⟩
  · intro hs
    rw [saveRecipe]
    cases hfind : st.savedRecipes.find? fun r => decide (r.recipeId = recipe.id) with
    | some r => rfl
    | none =>
      exfalso
      rw [isSaved, List.any_eq_true] at hs
      obtain ⟨r, hr, hp⟩ := hs
      exact List.find?_eq_none.mp hfind r hr hp
  · rw [saveRecipe]
    cases hfind : st.savedRecipes.find? fun r => decide (r.recipeId = recipe.id) with
    | some r => exact h
    | none =>
      have hall : ∀ r ∈ st.savedRecipes, ¬r.recipeId = recipe.id := by
        intro r hr
        have := List.find?_eq_none.mp hfind r hr
        simpa using this
      simp only [savedRecipesUnique, List.pairwise_append]
      refine ⟨h, List.pairwise_singleton _ _, ?_⟩
      intro a ha b hb
      simp only [List.mem_singleton] at hb
      subst hb
      intro hcon
      exact hall a ha hcon.2
  · exact List.Pairwise.sublist (List.filter_sublist _) h

/-- Concrete recipes-store state for the C9 witness: one saved recipe with
external id 1. -/
def c9st : RecipesStoreState :=
  { savedRecipes := [⟨"sr1", "current-user", 1,
      ⟨1, "Spaghetti Carbonara", "img", 30, 4, "url", "s"⟩, "t0"⟩] }

/-- Concrete recipe with the already-saved external id. -/
def c9recipe : Recipe := ⟨1, "Spaghetti Carbonara", "img", 30, 4, "url", "s"⟩

/-- C9 witness: re-saving external id 1 on the concrete state is a no-op,
and save/remove keep uniqueness. -/
theorem savedRecipes_unique_invariant_witness :
    saveRecipe c9recipe "sr2" "T" "q1" c9st = c9st
    ∧ savedRecipesUnique (saveRecipe c9recipe "sr2" "T" "q1" c9st).savedRecipes
    ∧ savedRecipesUnique (removeSavedRecipe 1 "q1" "T" c9st).savedRecipes := by
  have h := savedRecipes_unique_invariant c9st
    (by simp [savedRecipesUnique, c9st]) c9recipe "sr2" "T" "q1" 1
  exact ⟨h.1 (by decide), h.2.1, h.2.2⟩

/-- Milliseconds per day, `1000 * 60 * 60 * 24`, the divisor used by the
scheduler's date arithmetic. -/
def msPerDay : Int := 1000 * 60 * 60 * 24

/-- The ceiling `Math.ceil((expirationDate.getTime() - now.getTime()) / msPerDay)` on
integer milliseconds: the ceiling of the exact ratio. -/
def ceilDays (diff : Int) : Int := -((-diff).fdiv msPerDay)

/-- The notification service's `NotificationSettings`:
`dailyReminderTime` ("HH:MM") is embedded pre-split into its hour and
minute components, as consumed by
`settings.dailyReminderTime.split(":").map(Number)`. -/
structure NotificationSettings where
  enabled : Bool
  expirationWarningDays : List Int
  reminderHours : Nat
  reminderMinutes : Nat
deriving DecidableEq

/-- The assignment `date.setHours(hours, minutes, 0, 0)` on an epoch-millisecond
timestamp, with the calendar taken as UTC: replace the time-of-day
component by the configured daily-reminder clock time. -/
def atReminderTime (t : Int) (s : NotificationSettings) : Int :=
  t - t.emod msPerDay
    + ((s.reminderHours : Int) * 3600000 + (s.reminderMinutes : Int) * 60000)

/-- An alert registered with the platform scheduling facility
(`Notifications.scheduleNotificationAsync`): its identifier, trigger
date, and the item id carried in the payload. -/
structure ScheduledNotification where
  identifier : String
  date : Int
  itemId : String
deriving DecidableEq

/-- The naming convention `expiration-${item.id}-${days}` tying each alert
to its item and offset (`0` for the day-of-expiration alert). -/
def expirationIdentifier (itemId : String) (days : Int) : String :=
  "expiration-" ++ itemId ++ "-" ++ toString days

/-- The `scheduleNotification` helper: register a warning alert for the
given offset at the given trigger date. -/
def scheduleNotification (item : InventoryItem) (daysUntilExpiration : Int)
    (date : Int) : ScheduledNotification :=
  ⟨expirationIdentifier item.id daysUntilExpiration, date, item.id⟩

/-- The alerts produced for one item by the body of the `for (const item
of items)` loop in `scheduleExpirationNotifications`: per configured
warning offset, an immediate alert when the item expires in exactly that
many days, a future-dated alert at the reminder clock time when it expires
later (only if that instant is still in the future); plus a distinct
"expires today" alert at the expiration date itself under the same
future-instant guard. -/
def itemNotifications (settings : NotificationSettings) (now : Int)
    (item : InventoryItem) : List ScheduledNotification :=
  match item.expirationDate with
  | none => []
  | some expirationDate =>
    (settings.expirationWarningDays.flatMap fun warningDays =>
      if ceilDays (expirationDate - now) = warningDays then
        [scheduleNotification item warningDays now]
      else if ceilDays (expirationDate - now) > warningDays then
        (if atReminderTime (expirationDate - warningDays * msPerDay) settings
            > now then
          [scheduleNotification item warningDays
            (atReminderTime (expirationDate - warningDays * msPerDay) settings)]
        else [])
      else [])
    ++ (if ceilDays (expirationDate - now) ≥ 0 then
          (if atReminderTime expirationDate settings > now then
            [⟨expirationIdentifier item.id 0,
              atReminderTime expirationDate settings, item.id⟩]
          else [])
        else [])

/-- The `identifier.startsWith("expiration-")` test, evaluated on the
character list (`String.startsWith` is semantically this prefix test; the
library primitive's `Substring` internals do not reduce in proofs). -/
def strStartsWith (s p : String) : Bool := p.data.isPrefixOf s.data

/-- The `cancelAllExpirationNotifications`: drop every registered notification
whose identifier carries the expiration naming convention. -/
def cancelAllExpirationNotifications
    (registry : List ScheduledNotification) : List ScheduledNotification :=
  registry.filter fun n => !strStartsWith n.identifier "expiration-"

/-- The `scheduleExpirationNotifications`: when the notification setting is
disabled the function returns before cancelling anything; otherwise it
cancels all expiration alerts and registers the per-item alerts. -/
def scheduleExpirationNotifications (settings : NotificationSettings)
    (now : Int) (items : List InventoryItem)
    (registry : List ScheduledNotification) : List ScheduledNotification :=
  if !settings.enabled then registry
  else
    cancelAllExpirationNotifications registry
      ++ items.flatMap (itemNotifications settings now)

/-- C5.  Scheduling boundary: with notifications enabled, an item whose
`daysUntilExpiration` equals a configured warning offset `w` gets an
immediate alert triggered at `now`; an item with `daysUntilExpiration =
w + 5` gets a future-dated alert at `expiration − w days` at the
configured daily-reminder clock time, provided that instant is still in
the future. -/
theorem scheduleExpirationNotifications_boundary
    (settings : NotificationSettings) (now : Int)
    (items : List InventoryItem) (registry : List ScheduledNotification)
    (item : InventoryItem) (w exp : Int)
    (hen : settings.enabled = true)
    (hw : w ∈ settings.expirationWarningDays)
    (hmem : item ∈ items)
    (hexp : item.expirationDate = some exp) :
    (ceilDays (exp - now) = w →
      scheduleNotification item w now
        ∈ scheduleExpirationNotifications settings now items registry)
    ∧ (ceilDays (exp - now) = w + 5 →
        atReminderTime (exp - w * msPerDay) settings > now →
        scheduleNotification item w (atReminderTime (exp - w * msPerDay) settings)
          ∈ scheduleExpirationNotifications settings now items registry) := by
  constructor
  · intro hdays
    simp only [scheduleExpirationNotifications, hen, Bool.not_true,
      Bool.false_eq_true, if_false]
    refine List.mem_append.mpr (Or.inr ?_)
    refine List.mem_flatMap.mpr ⟨item, hmem, ?_⟩
    simp only [itemNotifications, hexp]
    refine List.mem_append.mpr (Or.inl ?_)
    refine List.mem_flatMap.mpr ⟨w, hw, ?_⟩
    simp [hdays]
  · intro hdays hfut
    have hne : ¬ceilDays (exp - now) = w := by rw [hdays]; omega
    have hgt : ceilDays (exp - now) > w := by rw [hdays]; omega
    simp only [scheduleExpirationNotifications, hen, Bool.not_true,
      Bool.false_eq_true, if_false]
    refine List.mem_append.mpr (Or.inr ?_)
    refine List.mem_flatMap.mpr ⟨item, hmem, ?_⟩
    simp only [itemNotifications, hexp]
    refine List.mem_append.mpr (Or.inl ?_)
    refine List.mem_flatMap.mpr ⟨w, hw, ?_⟩
    simp [hne, hgt, hfut]

/-- Enabled settings with warning offsets 1/3/7 days and a 09:00
daily-reminder time, matching the service defaults. -/
def c5settings : NotificationSettings := ⟨true, [1, 3, 7], 9, 0⟩

/-- An item expiring in exactly 3 days (relative to now = 0). -/
def c5item1 : InventoryItem :=
  { id := "a"
    userId := "u"
    ownership := .personal
    name := "Milk"
    location := .fridge
    quantity := 1
    unit := "L"
    expirationDate := some 259200000 }

/-- An item expiring in 8 = 3 + 5 days (relative to now = 0). -/
def c5item2 : InventoryItem :=
  { id := "b"
    userId := "u"
    ownership := .personal
    name := "Eggs"
    location := .fridge
    quantity := 12
    unit := "pcs"
    expirationDate := some 691200000 }

/-- C5 witness: for offset w = 3, the 3-day item gets an immediate alert at
now = 0 and the 8-day item gets an alert at expiration − 3 days at 09:00. -/
theorem scheduleExpirationNotifications_boundary_witness :
    scheduleNotification c5item1 3 0
        ∈ scheduleExpirationNotifications c5settings 0 [c5item1, c5item2] []
    ∧ scheduleNotification c5item2 3
        (atReminderTime (691200000 - 3 * msPerDay) c5settings)
        ∈ scheduleExpirationNotifications c5settings 0 [c5item1, c5item2] [] := by
  constructor
  · exact (scheduleExpirationNotifications_boundary c5settings 0
      [c5item1, c5item2] [] c5item1 3 259200000 rfl (by decide)
      (by simp) rfl).1 (by decide)
  · exact (scheduleExpirationNotifications_boundary c5settings 0
      [c5item1, c5item2] [] c5item2 3 691200000 rfl (by decide)
      (by simp) rfl).2 (by decide) (by decide)

/-- A stale registered alert for an already-deleted item. -/
def c6stale : ScheduledNotification := ⟨"expiration-deleted-3", 0, "deleted"⟩

/-- Settings with notifications disabled. -/
def c6disabled : NotificationSettings := ⟨false, [1, 3, 7], 9, 0⟩

/-- C6 counterexample: a scheduler run with notifications disabled returns
before cancelling anything, so a stale expiration alert for a deleted item
(the item list is empty) survives the run — the run does not
unconditionally cancel previously scheduled expiration alerts. -/
theorem scheduleExpirationNotifications_cancel_counterexample :
    c6stale ∈ scheduleExpirationNotifications c6disabled 0 [] [c6stale]
    ∧ strStartsWith c6stale.identifier "expiration-" = true := by
  constructor
  · simp [scheduleExpirationNotifications, c6disabled]
  · decide

/-- Every alert generated for an item carries that item's id in its
payload. -/
lemma mem_itemNotifications_itemId (settings : NotificationSettings)
    (now : Int) (item : InventoryItem) (n : ScheduledNotification)
    (h : n ∈ itemNotifications settings now item) : n.itemId = item.id := by
  cases hd : item.expirationDate with
  | none => simp [itemNotifications, hd] at h
  | some exp =>
    simp only [itemNotifications, hd, List.mem_append, List.mem_flatMap] at h
    rcases h with ⟨w, _, hmem⟩ | hmem
    · split at hmem
      · simp only [List.mem_singleton] at hmem
        subst hmem; rfl
      · split at hmem
        · split at hmem
          · simp only [List.mem_singleton] at hmem
            subst hmem; rfl
          · simp at hmem
        · simp at hmem
    · split at hmem
      · split at hmem
        · simp only [List.mem_singleton] at hmem
          subst hmem; rfl
        · simp at hmem
      · simp at hmem

/-- C6 amended.  With notifications enabled, a scheduler run first cancels
every registered expiration alert, so every expiration-convention alert in
the resulting registry was freshly generated for an item in the current
inventory: no alert survives for a deleted item. -/
theorem scheduleExpirationNotifications_enabled_cancels
    (settings : NotificationSettings) (now : Int)
    (items : List InventoryItem) (registry : List ScheduledNotification)
    (hen : settings.enabled = true) :
    ∀ n ∈ scheduleExpirationNotifications settings now items registry,
      strStartsWith n.identifier "expiration-" = true →
      ∃ item ∈ items, n.itemId = item.id := by
  intro n hn hpre
  simp only [scheduleExpirationNotifications, hen, Bool.not_true,
    Bool.false_eq_true, if_false, List.mem_append] at hn
  rcases hn with hn | hn
  · have := (List.mem_filter.mp hn).2
    simp [hpre] at this
  · obtain ⟨item, hit, hmem⟩ := List.mem_flatMap.mp hn
    exact ⟨item, hit, mem_itemNotifications_itemId _ _ _ _ hmem⟩

/-- Enabled settings for the C6 amended witness. -/
def c6enabled : NotificationSettings := ⟨true, [1, 3, 7], 9, 0⟩

/-- The single current inventory item of the C6 amended witness. -/
def c6item : InventoryItem :=
  { id := "x"
    userId := "u"
    ownership := .personal
    name := "Yogurt"
    location := .fridge
    quantity := 1
    unit := "pcs"
    expirationDate := some 259200000 }

/-- C6 amended witness: on a registry holding a stale alert, an enabled run
leaves an expiration alert only when it belongs to the current single item;
instantiated at the concrete immediate alert the run registers. -/
theorem scheduleExpirationNotifications_enabled_cancels_witness :
    ∃ item ∈ [c6item], (scheduleNotification c6item 3 0).itemId = item.id :=
  scheduleExpirationNotifications_enabled_cancels c6enabled 0 [c6item]
    [⟨"expiration-deleted-3", 0, "deleted"⟩] rfl
    (scheduleNotification c6item 3 0) (by decide) (by decide)

end ShelfLife
